import Mathlib

/-!
Verification of the static content data of the `nextjs-blog` repository.

The repository holds two kinds of structured data:

* project listings: JavaScript modules whose default export is an array of
  object literals with the fields `title`, `description`, `imgSrc`, `href`
  (`src/data/projectsData.js` and the two unnamed variants
  `src/unnamed/part_001`, `src/unnamed/part_002`);
* blog posts: markdown files opening with a YAML frontmatter header
  (`title`, `date`, `tags`, optional `lastmod`, `draft`, `summary`,
  `authors`) followed by prose.

Each JS object literal is embedded as an ordered association list of
(field name, value) pairs, exactly as written in the source, so that both
the set of fields and their written order are visible to the theorems.
Each frontmatter header is embedded the same way, with a small value type
distinguishing strings, string lists and booleans as they appear in the
YAML. A parsing function extracts the typed post record the site template
consumes, failing when a required field is absent or has the wrong shape.
-/

namespace NextjsBlog

/-- A JS object literal / YAML header field value as it appears in the
source: a quoted or template string, a list of quoted strings, or a bare
boolean. -/
inductive FieldVal where
  | str (s : String)
  | strList (l : List String)
  | bool (b : Bool)
deriving Repr, DecidableEq

/-- An object literal or frontmatter header: its fields in written order. -/
abbrev Record := List (String × FieldVal)

/-- Look up the first field with the given name. -/
def findField (k : String) : Record → Option FieldVal
  | [] => none
  | (k2, v) :: rest => if k2 == k then some v else findField k rest

/-- The field's value when it is present and is a string. -/
def getStr (k : String) (r : Record) : Option String :=
  match findField k r with
  | some (.str s) => some s
  | _ => none

/-- The field's value when it is present and is a list of strings. -/
def getStrList (k : String) (r : Record) : Option (List String) :=
  match findField k r with
  | some (.strList l) => some l
  | _ => none

/-- The field's value when it is present and is a boolean. -/
def getBool (k : String) (r : Record) : Option Bool :=
  match findField k r with
  | some (.bool b) => some b
  | _ => none

/-- The field names of a record, in written order. -/
def fieldNames (r : Record) : List String := r.map Prod.fst

/-! ## Project listings

Three modules export a `projectsData` array. Each is transcribed below,
records and fields in the order they are written in the file. -/

/-- `src/data/projectsData.js`: the default-exported `projectsData` array. -/
def projectsData : List Record :=
  [ [ ("title", .str "A Search Engine"),
      ("description", .str "What if you could look up any information in the world? Webpages, images, videos\n    and more. Google has many features to help you find exactly what you\x27re looking\n    for."),
      ("imgSrc", .str "/static/images/google.png"),
      ("href", .str "https://www.google.com") ],
    [ ("title", .str "Blockchain in Go"),
      ("description", .str "A simplified blockchain implementation in Golang"),
      ("imgSrc", .str "/static/images/blockchain.jpg"),
      ("href", .str "https://github.com/noodleslove/blockchain-go") ] ]

/-- `src/unnamed/part_001`: the default-exported `projectsData` array of the
first unnamed projects module. -/
def projectsData_part001 : List Record :=
  [ [ ("title", .str "House of Representatives Analysis"),
      ("description", .str "This project uses public data about the stock trades made by members of the US House of Representatives."),
      ("imgSrc", .str "/static/images/stock.png"),
      ("href", .str "https://github.com/noodleslove/House-of-Representative-Analysis-I") ],
    [ ("title", .str "Blockchain in Go"),
      ("description", .str "A simplified blockchain implementation in Golang"),
      ("imgSrc", .str "/static/images/blockchain.jpg"),
      ("href", .str "https://github.com/noodleslove/blockchain-go") ] ]

/-- `src/unnamed/part_002`: the default-exported `projectsData` array of the
second unnamed projects module. -/
def projectsData_part002 : List Record :=
  [ [ ("title", .str "UCSD CSES Website"),
      ("description", .str "A website for UCSD CSES, a student organization at UC San Diego."),
      ("imgSrc", .str "/static/images/ucsd-cses.jpg"),
      ("href", .str "https://github.com/Will-Hsu/cses_webdev") ],
    [ ("title", .str "NutriPal"),
      ("description", .str "NutriPal is a user-friendly diet information website that aims to simplify the daily diet logging process."),
      ("imgSrc", .str "/static/images/nutri-pal.jpg"),
      ("href", .str "https://github.com/noodleslove/nutriPal") ],
    [ ("title", .str "LFM Recommender System"),
      ("description", .str "A Yelp Recommender System using Latent Factor Collaborative Filtering to provide personalized business recommendations through a web application, enhancing user experience and engagement."),
      ("imgSrc", .str "/static/images/lfm.jpg"),
      ("href", .str "https://drive.google.com/file/d/1cbem5KYzXJhihUirzvo_5JAMdW6Dw8LF/view?usp=sharing") ],
    [ ("title", .str "House of Representatives Analysis II"),
      ("description", .str "This project analyzes stock trades made by members of the 116th U.S. House of Representatives, combining it with information on their political affiliation to evaluate missingness associations in the dataset."),
      ("imgSrc", .str "/static/images/stock-2.jpg"),
      ("href", .str "https://drive.google.com/file/d/10AgiJjXxIM7ZC-H-ScfD9iZHK3lsnAdt/view?usp=sharing") ],
    [ ("title", .str "House of Representatives Analysis I"),
      ("description", .str "This project analyzes stock trades made by members of the 116th U.S. House of Representatives, combining it with information on their political affiliation to evaluate missingness associations in the dataset."),
      ("imgSrc", .str "/static/images/stock.png"),
      ("href", .str "https://drive.google.com/file/d/1M3fHZAFZXAAp5A9QwROB91KcIcK2SG03/view?usp=sharing") ],
    [ ("title", .str "Blockchain in Go"),
      ("description", .str "A simplified blockchain implementation in Golang"),
      ("imgSrc", .str "/static/images/blockchain.jpg"),
      ("href", .str "https://github.com/noodleslove/blockchain-go") ],
    [ ("title", .str "Jable Tv Notification Service"),
      ("description", .str "An awesome web scraper powered by CloudScraper to collect video data from jable.tv"),
      ("imgSrc", .str "/static/images/jable.png"),
      ("href", .str "https://github.com/noodleslove/jable-py") ] ]

/-- All exported projects lists of the repository. -/
def projectsModules : List (List Record) :=
  [projectsData, projectsData_part001, projectsData_part002]

/-- Evaluating a projectsData module. Each module consists of a single
constant array literal bound to `projectsData` followed by
`export default projectsData`: evaluation takes no input, performs no
effect and returns the three exported lists. -/
def evalProjectsModules : Unit → List (List Record) :=
  fun _ => projectsModules

/-! ## Blog posts

The repository holds seven markdown post documents, each opening with a
`---`-delimited YAML frontmatter header: five files, plus two further
documents staged after separator markers inside the two `part-6.md` files
(the Part 3 and Part 5 posts of the series). Each header is transcribed
below, fields in written order. -/

/-- A blog content file: its repository path and its frontmatter header. -/
structure PostFile where
  path : String
  header : Record
deriving Repr, DecidableEq

/-- `src/data/blog/blockchain-in-go-1.md`, lines 1-8. -/
def post_blockchain1 : PostFile :=
  { path := "data/blog/blockchain-in-go-1.md",
    header :=
      [ ("title", .str "Building blockchain from scratch in Go. Part 1: Basic Prototype"),
        ("date", .str "2022-08-30"),
        ("tags", .strList ["blockchain", "code", "go"]),
        ("draft", .bool false),
        ("summary", .str "In this series of articles we\x27ll build a simplified cryptocurrency that\x27s based on a simple blockchain implementation."),
        ("authors", .strList ["eddieho", "sparrowhawk"]) ] }

/-- `src/data/blog/blockchain-in-go/part-4.md`, lines 1-9. -/
def post_part4 : PostFile :=
  { path := "data/blog/blockchain-in-go/part-4.md",
    header :=
      [ ("title", .str "Building blockchain in Go. Part 4: Transactions 1"),
        ("date", .str "2022-09-04"),
        ("tags", .strList ["blockchain", "code", "go"]),
        ("lastmod", .str "2022-09-04"),
        ("draft", .bool false),
        ("summary", .str "In this series of articles we’ll build a simplified cryptocurrency that’s based on a simple blockchain implementation."),
        ("authors", .strList ["eddieho"]) ] }

/-- `src/data/blog/blockchain-in-go/part-6.md`, lines 1-9 (the draft copy). -/
def post_part6_draft : PostFile :=
  { path := "data/blog/blockchain-in-go/part-6.md",
    header :=
      [ ("title", .str "Building blockchain in Go. Part 6: Transactions 2"),
        ("date", .str "2022-09-16"),
        ("tags", .strList ["blockchain", "code", "go"]),
        ("lastmod", .str "2022-09-16"),
        ("draft", .bool true),
        ("summary", .str "In this series of articles we’ll build a simplified cryptocurrency that’s based on a simple blockchain implementation."),
        ("authors", .strList ["eddieho"]) ] }

/-- `src/data/blog/blockchain/blockchain-in-go/part-6.md`, lines 1-9 (the
published copy; its header differs from the draft copy only in `draft`). -/
def post_part6_pub : PostFile :=
  { path := "data/blog/blockchain/blockchain-in-go/part-6.md",
    header :=
      [ ("title", .str "Building blockchain in Go. Part 6: Transactions 2"),
        ("date", .str "2022-09-16"),
        ("tags", .strList ["blockchain", "code", "go"]),
        ("lastmod", .str "2022-09-16"),
        ("draft", .bool false),
        ("summary", .str "In this series of articles we’ll build a simplified cryptocurrency that’s based on a simple blockchain implementation."),
        ("authors", .strList ["eddieho"]) ] }

/-- The second document staged inside
`src/data/blog/blockchain-in-go/part-6.md` (after the separator at line 331,
header at lines 332-339): the Part 3 post of the series. -/
def post_part3 : PostFile :=
  { path := "data/blog/blockchain-in-go/part-3.md",
    header :=
      [ ("title", .str "Building blockchain in Go. Part 3: Persistence and CLI"),
        ("date", .str "2022-09-02"),
        ("tags", .strList ["blockchain", "code", "go"]),
        ("draft", .bool false),
        ("summary", .str "In this series of articles we\x27ll build a simplified cryptocurrency that\x27s based on a simple blockchain implementation."),
        ("authors", .strList ["eddieho"]) ] }

/-- The second document staged inside
`src/data/blog/blockchain/blockchain-in-go/part-6.md` (after the separator at
line 494, header at lines 495-503): the Part 5 post of the series. -/
def post_part5 : PostFile :=
  { path := "data/blog/blockchain-in-go/part-5.md",
    header :=
      [ ("title", .str "Building blockchain in Go. Part 5: Addresses"),
        ("date", .str "2022-09-07"),
        ("tags", .strList ["blockchain", "code", "go"]),
        ("lastmod", .str "2022-09-08"),
        ("draft", .bool false),
        ("summary", .str "In this series of articles we’ll build a simplified cryptocurrency that’s based on a simple blockchain implementation."),
        ("authors", .strList ["eddieho"]) ] }

/-- `src/unnamed/part_000`, lines 1-9 (an unnamed blog content file). -/
def post_mlRecaps : PostFile :=
  { path := "unnamed/part_000",
    header :=
      [ ("title", .str "Recaps of Machine Learning: Linear Regression"),
        ("date", .str "2023-07-15"),
        ("tags", .strList ["machine learning", "data science", "notes", "math"]),
        ("lastmod", .str "2023-07-15"),
        ("draft", .bool false),
        ("summary", .str "Exploring linear regression and regularization techniques, this blog recaps the fundamental understanding of linear regression."),
        ("authors", .strList ["eddieho", "chatgpt"]) ] }

/-- All seven blog post documents of the repository, the two staged
Part 3 and Part 5 documents included. -/
def blogPosts : List PostFile :=
  [post_blockchain1, post_part3, post_part4, post_part5,
   post_part6_draft, post_part6_pub, post_mlRecaps]

/-- The typed blog post record the site template consumes: the six required
header fields, plus the optional `lastmod` date. -/
structure PostMeta where
  title : String
  date : String
  tags : List String
  lastmod : Option String
  draft : Bool
  summary : String
  authors : List String
deriving Repr, DecidableEq

/-- Parse a frontmatter header into a post record. Succeeds exactly when
`title` and `summary` are present as strings, `tags` and `authors` as lists
of strings, `date` as a string and `draft` as a boolean; `lastmod` is kept
when present as a string. -/
def parseMeta (h : Record) : Option PostMeta :=
  match getStr "title" h, getStr "date" h, getStrList "tags" h,
      getBool "draft" h, getStr "summary" h, getStrList "authors" h with
  | some t, some d, some tg, some dr, some su, some au =>
      some { title := t, date := d, tags := tg, lastmod := getStr "lastmod" h,
             draft := dr, summary := su, authors := au }
  | _, _, _, _, _, _ => none

/-- Modelled from the spec: the repository's authors data (the records the
posts' `authors` field references by name) is not among the provided source
files; only the references from the posts are. The spec states that "every
referenced author exists in the authors list", so the list is modelled as
holding one record per author name the content files reference. -/
def authorsList : List String :=
  ["eddieho", "sparrowhawk", "chatgpt"]

/-! ## Validity checkers for the spec's syntactic invariants -/

/-- String `p` is a prefix of `s`. -/
def strHasLead (p s : String) : Bool :=
  p.toList.isPrefixOf s.toList

/-- String `p` is a suffix of `s`. -/
def strHasTail (p s : String) : Bool :=
  p.toList.isSuffixOf s.toList

/-- Syntactic validity of an absolute http/https URL: an `http://` or
`https://` scheme, a non-empty host, and no whitespace. -/
def isValidHttpUrl (s : String) : Bool :=
  let cs := s.toList
  let rest : Option (List Char) :=
    if ("https://").toList.isPrefixOf cs then some (cs.drop 8)
    else if ("http://").toList.isPrefixOf cs then some (cs.drop 7)
    else none
  match rest with
  | none => false
  | some r =>
      let host := r.takeWhile (fun c => !(c == '/'))
      !host.isEmpty && cs.all (fun c => !c.isWhitespace)

/-- The numeric value of a decimal digit character. -/
def digitVal (c : Char) : Nat := c.toNat - 48

/-- Gregorian leap year. -/
def isLeapYear (y : Nat) : Bool :=
  y % 4 == 0 && (y % 100 != 0 || y % 400 == 0)

/-- Number of days in month `m` of year `y`. -/
def daysInMonth (y m : Nat) : Nat :=
  if m == 2 then (if isLeapYear y then 29 else 28)
  else if m == 4 || m == 6 || m == 9 || m == 11 then 30
  else 31

/-- A well-formed calendar date in `YYYY-MM-DD` form: ten characters, digits
and dashes in place, month between 1 and 12, day between 1 and the month's
length. -/
def isValidDate (s : String) : Bool :=
  match s.toList with
  | [y1, y2, y3, y4, c1, m1, m2, c2, d1, d2] =>
      c1 == '-' && c2 == '-' &&
      [y1, y2, y3, y4, m1, m2, d1, d2].all Char.isDigit &&
      (let y := ((digitVal y1 * 10 + digitVal y2) * 10 + digitVal y3) * 10 + digitVal y4
       let m := digitVal m1 * 10 + digitVal m2
       let d := digitVal d1 * 10 + digitVal d2
       1 ≤ m && m ≤ 12 && 1 ≤ d && d ≤ daysInMonth y m)
  | _ => false

/-- No element of the list occurs twice. -/
def distinctStrings : List String → Bool
  | [] => true
  | x :: xs => !(xs.contains x) && distinctStrings xs

/-! ## Claim theorems -/

/-- C1: in every exported projects list (the default export of each
projectsData module), every record has a non-empty string `title` and an
`href` that is a syntactically valid absolute http or https URL. -/
theorem projects_title_nonempty_href_valid_url :
    (projectsModules.all fun m => m.all fun r =>
      ((getStr "title" r).any fun t => !t.isEmpty) &&
      ((getStr "href" r).any isValidHttpUrl)) = true := by
  decide

/-- C2: every blog post's metadata header parses to a well-formed record:
all six fields `title`, `date`, `tags`, `draft`, `summary`, `authors` are
present, and `parseMeta` (which demands `title`, `date` and `summary` as
strings, `tags` and `authors` as lists of strings, and `draft` as a
boolean) succeeds on every header. -/
theorem posts_metadata_parses :
    (blogPosts.all fun p =>
      (["title", "date", "tags", "draft", "summary", "authors"].all fun k =>
        (findField k p.header).isSome) &&
      (parseMeta p.header).isSome) = true := by
  decide

/-- C3: every blog post's `tags` field is a list of non-empty strings with
no tag occurring twice within the same post. -/
theorem posts_tags_nonempty_distinct :
    (blogPosts.all fun p =>
      (getStrList "tags" p.header).any fun ts =>
        ts.all (fun t => !t.isEmpty) && distinctStrings ts) = true := by
  decide

/-- C4: every author name referenced in a blog post's `authors` field
resolves to a record of the repository's authors list (modelled from the
spec as `authorsList`). -/
theorem posts_authors_resolve :
    (blogPosts.all fun p =>
      (getStrList "authors" p.header).any fun au =>
        au.all fun a => authorsList.contains a) = true := by
  decide

/-- C5: every date field of every blog post's metadata header — `date`,
and `lastmod` when present — is a well-formed calendar date in
`YYYY-MM-DD` form. -/
theorem posts_dates_wellformed :
    (blogPosts.all fun p =>
      ((getStr "date" p.header).any isValidDate) &&
      (match findField "lastmod" p.header with
       | none => true
       | some (.str l) => isValidDate l
       | some _ => false)) = true := by
  decide

/-- C6: each projectsData module's default export is an ordered list of
fixed-shape records: every record consists of exactly the four fields
`title`, `description`, `imgSrc`, `href` in that order, and each exported
list carries its records in the order they are written in the source (shown
by the sequence of titles of each module). -/
theorem projects_shape_and_order :
    (projectsModules.all fun m => m.all fun r =>
      fieldNames r == ["title", "description", "imgSrc", "href"]) = true ∧
    projectsData.map (getStr "title") =
      [some "A Search Engine", some "Blockchain in Go"] ∧
    projectsData_part001.map (getStr "title") =
      [some "House of Representatives Analysis", some "Blockchain in Go"] ∧
    projectsData_part002.map (getStr "title") =
      [some "UCSD CSES Website", some "NutriPal", some "LFM Recommender System",
       some "House of Representatives Analysis II",
       some "House of Representatives Analysis I",
       some "Blockchain in Go", some "Jable Tv Notification Service"] := by
  refine ⟨by decide, rfl, rfl, rfl⟩

/-- C7: the project data is static with no runtime mutation: a projectsData
module is a constant array literal with an `export default`, so evaluating
the modules is a pure function of no input, and any two evaluations yield
equal lists. The repository defines no operation over project or post
records at all, hence none that mutates one after creation: the embedding
of the repository consists of the constant data and the read-only accessors
above. -/
theorem projects_evaluation_deterministic :
    ∀ a b : Unit, evalProjectsModules a = evalProjectsModules b :=
  fun _ _ => rfl

/-- C8: two distinct blog post files (`data/blog/blockchain-in-go/part-6.md`
and `data/blog/blockchain/blockchain-in-go/part-6.md`) have identical
title `Building blockchain in Go. Part 6: Transactions 2`, identical `date`
and `lastmod` equal to `2022-09-16`, and identical summary, yet differing
`draft` flags, so title-plus-date does not determine the metadata record. -/
theorem part6_duplicate_metadata :
    post_part6_draft.path ≠ post_part6_pub.path ∧
    getStr "title" post_part6_draft.header =
      some "Building blockchain in Go. Part 6: Transactions 2" ∧
    getStr "title" post_part6_pub.header = getStr "title" post_part6_draft.header ∧
    getStr "date" post_part6_draft.header = some "2022-09-16" ∧
    getStr "date" post_part6_pub.header = some "2022-09-16" ∧
    getStr "lastmod" post_part6_draft.header = some "2022-09-16" ∧
    getStr "lastmod" post_part6_pub.header = some "2022-09-16" ∧
    getStr "summary" post_part6_draft.header = getStr "summary" post_part6_pub.header ∧
    getBool "draft" post_part6_draft.header = some true ∧
    getBool "draft" post_part6_pub.header = some false ∧
    parseMeta post_part6_draft.header ≠ parseMeta post_part6_pub.header := by
  decide

/-- C9: in every exported projects list, every record's `imgSrc` is a
site-relative path under `/static/images/` ending in `.png` or `.jpg`, and
every record's `href` begins with `https://`. -/
theorem projects_imgsrc_path_and_https :
    (projectsModules.all fun m => m.all fun r =>
      ((getStr "imgSrc" r).any fun s =>
        strHasLead "/static/images/" s &&
        (strHasTail ".png" s || strHasTail ".jpg" s)) &&
      ((getStr "href" r).any fun h => strHasLead "https://" h)) = true := by
  decide

/-- C10: every blog post's `authors` list is non-empty and carries the
author name `eddieho`. -/
theorem posts_authored_by_eddieho :
    (blogPosts.all fun p =>
      (getStrList "authors" p.header).any fun au =>
        !au.isEmpty && au.contains "eddieho") = true := by
  decide

end NextjsBlog
